import Mathlib

/-!
Shallow embedding of the FORGE deterministic variation/session engine
(crate `forge-variation`): parameter schema with bounded clamping, the
SplitMix64-style seed derivation, variation batch generation, and the
session state machine with its validator and persistence wrappers.

Machine integers (`u64`) are modelled as `Nat` with explicit `% 2^64`.
`f32` is modelled by the inductive `F32`: NaN, the two infinities, and
finite values as exact rationals; comparisons follow IEEE-754 semantics
(every comparison involving NaN is false), addition follows the IEEE
sign/NaN rules with exact rational addition on finite operands (rounding
and overflow-to-infinity are idealised away; the claims proved below
depend only on comparison semantics and NaN propagation).
Rust `String`s are modelled as `List Char`.
-/

/-- Model of `f32`: NaN, infinities, or a finite value (exact rational). -/
inductive F32 where
  | nan : F32
  | negInf : F32
  | posInf : F32
  | fin : ℚ → F32
deriving DecidableEq

namespace F32

/-- IEEE `<` on `f32`: false whenever either operand is NaN. -/
def lt : F32 → F32 → Bool
  | nan, _ => false
  | _, nan => false
  | negInf, negInf => false
  | negInf, _ => true
  | posInf, _ => false
  | fin _, negInf => false
  | fin _, posInf => true
  | fin q₁, fin q₂ => decide (q₁ < q₂)

/-- IEEE `>` on `f32` (`a > b` iff `b < a`). -/
def gt (a b : F32) : Bool := lt b a

/-- IEEE `<=` on `f32`: false whenever either operand is NaN. -/
def le : F32 → F32 → Bool
  | nan, _ => false
  | _, nan => false
  | negInf, _ => true
  | posInf, posInf => true
  | posInf, _ => false
  | fin _, negInf => false
  | fin _, posInf => true
  | fin q₁, fin q₂ => decide (q₁ ≤ q₂)

/-- IEEE addition: NaN propagates, opposite infinities give NaN, finite
addition is exact rational addition (idealised: no rounding/overflow). -/
def add : F32 → F32 → F32
  | nan, _ => nan
  | _, nan => nan
  | posInf, negInf => nan
  | posInf, _ => posInf
  | negInf, posInf => nan
  | negInf, _ => negInf
  | fin _, posInf => posInf
  | fin _, negInf => negInf
  | fin q₁, fin q₂ => fin (q₁ + q₂)

/-- `f32::is_finite`. -/
def isFinite : F32 → Bool
  | fin _ => true
  | _ => false

theorem lt_irrefl (a : F32) : lt a a = false := by
  cases a <;> simp [lt]

theorem le_refl_of_ne_nan (a : F32) (h : a ≠ nan) : le a a = true := by
  cases a <;> simp [le] at h ⊢

theorem lt_imp_le {a b : F32} (h : lt a b = true) : le a b = true := by
  cases a <;> cases b <;> simp_all [lt, le]
  exact le_of_lt h

theorem not_lt_imp_le {a b : F32} (ha : a ≠ nan) (hb : b ≠ nan)
    (h : lt a b = false) : le b a = true := by
  cases a <;> cases b <;> simp_all [lt, le]

theorem ne_nan_of_lt_left {a b : F32} (h : lt a b = true) : a ≠ nan := by
  cases a <;> simp_all [lt]

theorem ne_nan_of_lt_right {a b : F32} (h : lt a b = true) : b ≠ nan := by
  cases a <;> cases b <;> simp_all [lt]

theorem ne_nan_of_le_left {a b : F32} (h : le a b = true) : a ≠ nan := by
  cases a <;> simp_all [le]

theorem ne_nan_of_le_right {a b : F32} (h : le a b = true) : b ≠ nan := by
  cases a <;> cases b <;> simp_all [le]

theorem le_trans {a b c : F32} (h₁ : le a b = true) (h₂ : le b c = true) :
    le a c = true := by
  cases a <;> cases b <;> cases c <;> simp_all [le]
  exact ge_trans h₂ h₁

theorem add_ne_nan {a b : F32} (ha : a.isFinite = true) (hb : b ≠ nan) :
    add a b ≠ nan := by
  cases a <;> cases b <;> simp_all [add, isFinite]

end F32

instance {ε α} [DecidableEq ε] [DecidableEq α] : DecidableEq (Except ε α) :=
  fun x y =>
  match x, y with
  | .ok a, .ok b =>
    if h : a = b then .isTrue (by rw [h]) else .isFalse (by simp [h])
  | .error a, .error b =>
    if h : a = b then .isTrue (by rw [h]) else .isFalse (by simp [h])
  | .ok _, .error _ => .isFalse (by simp)
  | .error _, .ok _ => .isFalse (by simp)

/-- Rust strings are modelled as lists of characters. -/
abbrev Str := List Char

/-- Big-endian decimal digit characters of a natural number
(the output of Rust's `format!("{}", n)`). -/
def decChars (n : Nat) : Str :=
  if n = 0 then ['0'] else ((Nat.digits 10 n).map Nat.digitChar).reverse

/-- Zero-pad a natural number's decimal representation to width 4
(the output of Rust's `format!("{:04}", n)`). -/
def pad4 (n : Nat) : Str :=
  List.replicate (4 - (decChars n).length) '0' ++ decChars n

/-- Read a big-endian list of digit characters back as a natural number. -/
def charsToNat (l : Str) : Nat :=
  l.foldl (fun a c => 10 * a + (c.toNat - 48)) 0

/-- Deterministic seed for variation generation (`Seed(pub u64)`). -/
structure Seed where
  val : Nat
deriving DecidableEq

namespace Seed

/-- `Seed::derive`: SplitMix64-style mixing, all `u64` arithmetic
modelled as `Nat` with explicit reduction `% 2^64`. -/
def derive (s : Seed) (index : Nat) : Seed :=
  let z₀ := (s.val + 0x9E3779B97F4A7C15 + index) % 2 ^ 64
  let z₁ := ((z₀ ^^^ (z₀ >>> 30)) * 0xBF58476D1CE4E5B9) % 2 ^ 64
  let z₂ := ((z₁ ^^^ (z₁ >>> 27)) * 0x94D049BB133111EB) % 2 ^ 64
  ⟨z₂ ^^^ (z₂ >>> 31)⟩

end Seed

/-- Schema version constant `PARAM_SCHEMA_VERSION = "1.0"`. -/
def PARAM_SCHEMA_VERSION : Str := "1.0".toList

/-- `AssetClass` enum. -/
inductive AssetClass where
  | ArenaProp | ArenaWall | Pillar | Debris
deriving DecidableEq

/-- Parameter-related errors (`ParamError`). -/
inductive ParamError where
  | InvalidBounds (min max : F32)
  | OutOfRange (field : Str) (value min max : F32)
deriving DecidableEq

/-- Bounded parameter `Bounded { value, min, max }`. -/
structure Bounded where
  value : F32
  min : F32
  max : F32
deriving DecidableEq

namespace Bounded

/-- `Bounded::clamped`: clamp `value` into `[min, max]` using IEEE
comparisons (`if value < min { min } else if value > max { max }`). -/
def clamped (b : Bounded) : Bounded :=
  if F32.lt b.value b.min then { b with value := b.min }
  else if F32.gt b.value b.max then { b with value := b.max }
  else b

/-- `Bounded::new`: error if `!(min < max)`, otherwise clamp. -/
def new (value min max : F32) : Except ParamError Bounded :=
  if !(F32.lt min max) then .error (.InvalidBounds min max)
  else .ok (clamped ⟨value, min, max⟩)

/-- `Bounded::set`: overwrite the value, then clamp. -/
def set (b : Bounded) (newValue : F32) : Bounded :=
  clamped { b with value := newValue }

end Bounded

/-- `ParameterSetV1`: six bounded parameters. -/
structure ParameterSetV1 where
  height_scale : Bounded
  extrusion_depth : Bounded
  bevel_amount : Bounded
  symmetry_break : Bounded
  erosion_intensity : Bounded
  detail_density : Bounded
deriving DecidableEq

/-- `ParameterSetV1::default()`. -/
def ParameterSetV1.default : ParameterSetV1 where
  height_scale := ⟨.fin 1, .fin (mkRat 1 2), .fin 2⟩
  extrusion_depth := ⟨.fin (mkRat 1 2), .fin (mkRat 1 10), .fin 1⟩
  bevel_amount := ⟨.fin (mkRat 1 10), .fin 0, .fin (mkRat 1 2)⟩
  symmetry_break := ⟨.fin 0, .fin 0, .fin 1⟩
  erosion_intensity := ⟨.fin 0, .fin 0, .fin 1⟩
  detail_density := ⟨.fin (mkRat 1 5), .fin 0, .fin 1⟩

/-- `ParameterDeltaV1`: sparse additive deltas. -/
structure ParameterDeltaV1 where
  height_scale : Option F32 := none
  extrusion_depth : Option F32 := none
  bevel_amount : Option F32 := none
  symmetry_break : Option F32 := none
  erosion_intensity : Option F32 := none
  detail_density : Option F32 := none
deriving DecidableEq

/-- One field's step of `ParameterSetV1::apply_delta`: if the delta is
present, add it to the value and clamp that field; otherwise untouched. -/
def applyField (b : Bounded) : Option F32 → Bounded
  | none => b
  | some v => Bounded.clamped { b with value := F32.add b.value v }

namespace ParameterSetV1

/-- `ParameterSetV1::clamp_all`. -/
def clamp_all (p : ParameterSetV1) : ParameterSetV1 where
  height_scale := p.height_scale.clamped
  extrusion_depth := p.extrusion_depth.clamped
  bevel_amount := p.bevel_amount.clamped
  symmetry_break := p.symmetry_break.clamped
  erosion_intensity := p.erosion_intensity.clamped
  detail_density := p.detail_density.clamped

/-- `ParameterSetV1::apply_delta`: each present field gets its offset
added then is clamped; absent fields are untouched. The six updates in
the source touch disjoint fields, so they are modelled as a single
record construction. -/
def apply_delta (p : ParameterSetV1) (d : ParameterDeltaV1) : ParameterSetV1 where
  height_scale := applyField p.height_scale d.height_scale
  extrusion_depth := applyField p.extrusion_depth d.extrusion_depth
  bevel_amount := applyField p.bevel_amount d.bevel_amount
  symmetry_break := applyField p.symmetry_break d.symmetry_break
  erosion_intensity := applyField p.erosion_intensity d.erosion_intensity
  detail_density := applyField p.detail_density d.detail_density

/-- The in-order `(name, param)` list that `ParameterSetV1::validate`
iterates. -/
def fieldList (p : ParameterSetV1) : List (Str × Bounded) :=
  [("height_scale".toList, p.height_scale),
   ("extrusion_depth".toList, p.extrusion_depth),
   ("bevel_amount".toList, p.bevel_amount),
   ("symmetry_break".toList, p.symmetry_break),
   ("erosion_intensity".toList, p.erosion_intensity),
   ("detail_density".toList, p.detail_density)]

/-- The loop body of `ParameterSetV1::validate`: first field with
`value < min || value > max` yields `OutOfRange`. -/
def checkParams : List (Str × Bounded) → Except ParamError Unit
  | [] => .ok ()
  | (name, param) :: rest =>
    if F32.lt param.value param.min || F32.gt param.value param.max then
      .error (.OutOfRange name param.value param.min param.max)
    else checkParams rest

/-- `ParameterSetV1::validate`. -/
def validate (p : ParameterSetV1) : Except ParamError Unit :=
  checkParams p.fieldList

end ParameterSetV1

/-- `VariationSpecV1`. `Uuid` is modelled as an opaque `Nat`. -/
structure VariationSpecV1 where
  variation_id : Str
  base_session_id : Nat
  asset_class : AssetClass
  schema_version : Str
  seed : Seed
  params : ParameterSetV1
  intent_text : Str
deriving DecidableEq

/-- The variation id synthesized by `generate_batch`:
`format!("var_{:04}_{}", i, seed.0)`. -/
def mkVariationId (i : Nat) (seedVal : Nat) : Str :=
  "var_".toList ++ pad4 i ++ '_' :: decChars seedVal

/-- `VariationSpecV1::generate_batch`. -/
def generate_batch (base_session_id : Nat) (asset_class : AssetClass)
    (base_seed : Seed) (base_params : ParameterSetV1) (intent_text : Str)
    (count : Nat) : List VariationSpecV1 :=
  (List.range count).map fun i =>
    { variation_id := mkVariationId i (base_seed.derive i).val
      base_session_id
      asset_class
      schema_version := PARAM_SCHEMA_VERSION
      seed := base_seed.derive i
      params := base_params
      intent_text }

/-- `BaseInputType` enum. -/
inductive BaseInputType where
  | Drawn | Image
deriving DecidableEq

/-- `BaseInputRefV1`. -/
structure BaseInputRefV1 where
  input_type : BaseInputType
  source_path : Str
deriving DecidableEq

/-- `IntentEntryV1`. -/
structure IntentEntryV1 where
  iteration : Nat
  text : Str
deriving DecidableEq

/-- `DimensionsMeters`. -/
structure DimensionsMeters where
  height : F32
  width : F32
  depth : F32
deriving DecidableEq

/-- `DimensionsMeters::is_valid`: all dimensions finite and positive. -/
def DimensionsMeters.is_valid (d : DimensionsMeters) : Bool :=
  d.height.isFinite && d.width.isFinite && d.depth.isFinite &&
    F32.gt d.height (.fin 0) && F32.gt d.width (.fin 0) && F32.gt d.depth (.fin 0)

/-- `PivotMode` enum. -/
inductive PivotMode where
  | Center | BaseCenter
deriving DecidableEq

/-- `CollisionMode` enum. -/
inductive CollisionMode where
  | None | Box | Convex
deriving DecidableEq

/-- `ExportSettingsV1`. -/
structure ExportSettingsV1 where
  pivot : PivotMode
  collision : CollisionMode
  generate_lods : Bool
deriving DecidableEq

/-- `ApprovedDesignV1`. -/
structure ApprovedDesignV1 where
  approved_id : Str
  variation_id : Str
  dimensions : DimensionsMeters
  export_settings : ExportSettingsV1
  user_label : Option Str
deriving DecidableEq

/-- `SessionError` (payload-free model of the `Io`/`Serialization`
wrappers; the others carry the same data as the source). -/
inductive SessionError where
  | InvalidDimensions
  | UnknownVariation (variation_id : Str)
  | DuplicateApproval (variation_id : Str)
  | DuplicateVariation (variation_id : Str)
  | EmptyIntent
  | SchemaVersionMismatch (expected got : Str)
  | InvalidPath (path : Str)
  | OrphanedApproval (approved_id variation_id : Str)
  | InvalidParameters (e : ParamError)
  | IoErr
deriving DecidableEq

/-- `SessionV1`. `Uuid` is modelled as an opaque `Nat`. -/
structure SessionV1 where
  session_id : Nat
  asset_class : AssetClass
  schema_version : Str
  base_input : BaseInputRefV1
  base_seed : Seed
  base_params : ParameterSetV1
  intent_history : List IntentEntryV1
  variations : List VariationSpecV1
  approvals : List ApprovedDesignV1
  notes : Option Str
deriving DecidableEq

/-- The filesystem is modelled as a predicate on paths:
`env path = true` iff `Path::new(path).exists()`. -/
abbrev FsEnv := Str → Bool

/-- `BaseInputRefV1::validate`: error unless the referenced path exists
in the filesystem environment. -/
def BaseInputRefV1.validate (env : FsEnv) (b : BaseInputRefV1) :
    Except SessionError Unit :=
  if !(env b.source_path) then .error (.InvalidPath b.source_path)
  else .ok ()

/-- `str::trim` on the char-list model of strings. -/
def strTrim (l : Str) : Str :=
  ((l.dropWhile Char.isWhitespace).reverse.dropWhile Char.isWhitespace).reverse

namespace SessionV1

/-- `SessionV1::push_intent`. Rust mutates `self` and returns a
`Result`; this is modelled as returning the result paired with the
session state after the call. -/
def push_intent (s : SessionV1) (text : Str) :
    Except SessionError Nat × SessionV1 :=
  if (strTrim text).isEmpty then (.error .EmptyIntent, s)
  else
    (.ok s.intent_history.length,
     { s with intent_history :=
        s.intent_history ++ [⟨s.intent_history.length, text⟩] })

/-- `SessionV1::apply_base_delta`. -/
def apply_base_delta (s : SessionV1) (delta : ParameterDeltaV1) : SessionV1 :=
  { s with base_params := s.base_params.apply_delta delta }

/-- `SessionV1::generate_variations`: replace the current batch. -/
def generate_variations (s : SessionV1) (count : Nat) (intent_text : Str) :
    SessionV1 :=
  { s with variations :=
      (generate_batch s.session_id s.asset_class s.base_seed s.base_params
        intent_text count) }

/-- `SessionV1::append_variations`: extend the current batch with a
freshly generated one. -/
def append_variations (s : SessionV1) (count : Nat) (intent_text : Str) :
    SessionV1 :=
  { s with variations :=
      (s.variations ++
        generate_batch s.session_id s.asset_class s.base_seed s.base_params
          intent_text count) }

/-- `SessionV1::approve_variation`, modelled as result paired with the
session state after the call (early returns leave the state unchanged). -/
def approve_variation (s : SessionV1) (variation_id : Str)
    (dimensions : DimensionsMeters) (export_settings : ExportSettingsV1)
    (user_label : Option Str) : Except SessionError Str × SessionV1 :=
  if !dimensions.is_valid then (.error .InvalidDimensions, s)
  else if !(s.variations.any fun v => v.variation_id == variation_id) then
    (.error (.UnknownVariation variation_id), s)
  else if s.approvals.any fun a => a.variation_id == variation_id then
    (.error (.DuplicateApproval variation_id), s)
  else
    let approved_id := "appr_".toList ++ decChars s.approvals.length ++
      '_' :: variation_id
    (.ok approved_id,
     { s with approvals := s.approvals ++
        [⟨approved_id, variation_id, dimensions, export_settings, user_label⟩] })

/-- The duplicate-id scan of `SessionV1::validate` (check 4): walk the
variations in order, tracking ids already seen (the `HashSet` is
modelled as the list of inserted ids, membership-equivalent). -/
def checkDups (seen : List Str) : List VariationSpecV1 → Except SessionError Unit
  | [] => .ok ()
  | v :: rest =>
    if v.variation_id ∈ seen then .error (.DuplicateVariation v.variation_id)
    else checkDups (v.variation_id :: seen) rest

/-- The approval scan of `SessionV1::validate` (checks 5 and 6,
interleaved per approval exactly as in the source loop). -/
def checkApprovals (variationIds : List Str) :
    List ApprovedDesignV1 → Except SessionError Unit
  | [] => .ok ()
  | a :: rest =>
    if a.variation_id ∉ variationIds then
      .error (.OrphanedApproval a.approved_id a.variation_id)
    else if !a.dimensions.is_valid then .error .InvalidDimensions
    else checkApprovals variationIds rest

/-- `SessionV1::validate`: the five early-return checks in source
order (schema version, base input path, parameter bounds, duplicate
variation ids, then the per-approval orphan/dimension scan). -/
def validate (env : FsEnv) (s : SessionV1) : Except SessionError Unit :=
  if s.schema_version ≠ PARAM_SCHEMA_VERSION then
    .error (.SchemaVersionMismatch PARAM_SCHEMA_VERSION s.schema_version)
  else match s.base_input.validate env with
  | .error e => .error e
  | .ok () =>
    match s.base_params.validate with
    | .error e => .error (.InvalidParameters e)
    | .ok () =>
      match checkDups [] s.variations with
      | .error e => .error e
      | .ok () => checkApprovals (s.variations.map (·.variation_id)) s.approvals

end SessionV1

/-- The persisted-session store: path ↦ saved session. -/
abbrev SessionStore := Str → Option SessionV1

/-- Modelled from the spec: `save_session` serializes the session with
`serde_json` and writes it with `std::fs`, neither of which is part of
this repository's sources. Per the spec's round-trip contract
("load(save(session)) produces a session ... all fields are equal to
the original"), the JSON encode/decode pair is modelled as exact, so
the store maps the path to the session value itself. The in-repo
wrapper behaviour is kept: validate first, then write. -/
def save_session (env : FsEnv) (store : SessionStore) (path : Str)
    (session : SessionV1) : Except SessionError SessionStore :=
  match session.validate env with
  | .error e => .error e
  | .ok () => .ok fun p => if p = path then some session else store p

/-- Modelled from the spec: `load_session` reads the file with
`std::fs` and parses it with `serde_json` (both outside this
repository's sources), modelled as a lookup in the exact store; a
missing file is an I/O error. The in-repo wrapper behaviour is kept:
read, then validate. -/
def load_session (env : FsEnv) (store : SessionStore) (path : Str) :
    Except SessionError SessionV1 :=
  match store path with
  | none => .error .IoErr
  | some session =>
    match session.validate env with
    | .error e => .error e
    | .ok () => .ok session


/-! ### Decimal-string lemmas -/

theorem foldl_digits (ds : List ℕ) (h : ∀ d ∈ ds, d < 10) (acc : ℕ) :
    List.foldl (fun a c => 10 * a + (c.toNat - 48)) acc
      ((ds.map Nat.digitChar).reverse)
      = acc * 10 ^ ds.length + Nat.ofDigits 10 ds := by
  induction ds generalizing acc with
  | nil => simp [Nat.ofDigits]
  | cons d t ih =>
    have hd : d < 10 := h d (List.mem_cons_self d t)
    have ht : ∀ x ∈ t, x < 10 := fun x hx => h x (List.mem_cons_of_mem d hx)
    simp only [List.map_cons, List.reverse_cons, List.foldl_append,
      List.foldl_cons, List.foldl_nil]
    rw [ih ht acc]
    have hchar : (Nat.digitChar d).toNat - 48 = d := by
      interval_cases d <;> rfl
    rw [hchar, Nat.ofDigits_cons, List.length_cons]
    ring

theorem charsToNat_decChars (n : ℕ) : charsToNat (decChars n) = n := by
  by_cases h : n = 0
  · subst h; rfl
  · unfold charsToNat decChars
    rw [if_neg h]
    rw [foldl_digits (Nat.digits 10 n)
      (fun d hd => Nat.digits_lt_base (by norm_num) hd) 0]
    simp [Nat.ofDigits_digits]

theorem foldl_replicate_zero (k : ℕ) :
    List.foldl (fun a c => 10 * a + (c.toNat - 48)) 0 (List.replicate k '0')
      = 0 := by
  induction k with
  | zero => rfl
  | succ k ih => rw [List.replicate_succ, List.foldl_cons]; exact ih

theorem charsToNat_pad4 (n : ℕ) : charsToNat (pad4 n) = n := by
  unfold charsToNat pad4
  rw [List.foldl_append, foldl_replicate_zero]
  exact charsToNat_decChars n

theorem pad4_inj : Function.Injective pad4 := by
  intro m n h
  have h2 := congrArg charsToNat h
  rwa [charsToNat_pad4, charsToNat_pad4] at h2

theorem decChars_ne_underscore (n : ℕ) : ∀ c ∈ decChars n, c ≠ '_' := by
  unfold decChars
  split
  · intro c hc
    rw [List.mem_singleton] at hc
    subst hc; decide
  · intro c hc
    rw [List.mem_reverse] at hc
    obtain ⟨d, hd, rfl⟩ := List.mem_map.1 hc
    have : d < 10 := Nat.digits_lt_base (by norm_num) hd
    interval_cases d <;> decide

theorem pad4_ne_underscore (n : ℕ) : ∀ c ∈ pad4 n, c ≠ '_' := by
  intro c hc
  rcases List.mem_append.1 hc with h | h
  · rw [List.eq_of_mem_replicate h]; decide
  · exact decChars_ne_underscore n c h

theorem append_underscore_inj :
    ∀ (a a' b b' : Str), (∀ c ∈ a, c ≠ '_') → (∀ c ∈ a', c ≠ '_') →
      a ++ '_' :: b = a' ++ '_' :: b' → a = a' ∧ b = b' := by
  intro a
  induction a with
  | nil =>
    intro a' b b' _ ha' h
    cases a' with
    | nil => simpa using h
    | cons c t =>
      simp only [List.nil_append, List.cons_append, List.cons.injEq] at h
      exact absurd h.1.symm (ha' c (List.mem_cons_self c t))
  | cons c t ih =>
    intro a' b b' ha ha' h
    cases a' with
    | nil =>
      simp only [List.nil_append, List.cons_append, List.cons.injEq] at h
      exact absurd h.1 (ha c (List.mem_cons_self c t))
    | cons c' t' =>
      simp only [List.cons_append, List.cons.injEq] at h
      obtain ⟨rfl, h2⟩ := h
      have h3 := ih t' b b' (fun x hx => ha x (List.mem_cons_of_mem _ hx))
        (fun x hx => ha' x (List.mem_cons_of_mem _ hx)) h2
      exact ⟨by rw [h3.1], h3.2⟩

theorem mkVariationId_inj {i j s t : ℕ}
    (h : mkVariationId i s = mkVariationId j t) : i = j := by
  unfold mkVariationId at h
  rw [List.append_assoc, List.append_assoc] at h
  have h2 := List.append_cancel_left h
  exact pad4_inj (append_underscore_inj _ _ _ _ (pad4_ne_underscore i)
    (pad4_ne_underscore j) h2).1

/-! ### Batch lemmas -/

theorem generate_batch_length (sid : Nat) (ac : AssetClass) (bs : Seed)
    (bp : ParameterSetV1) (it : Str) (count : Nat) :
    (generate_batch sid ac bs bp it count).length = count := by
  simp [generate_batch]

theorem generate_batch_get (sid : Nat) (ac : AssetClass) (bs : Seed)
    (bp : ParameterSetV1) (it : Str) (count : Nat) (i : Nat)
    (h : i < (generate_batch sid ac bs bp it count).length) :
    (generate_batch sid ac bs bp it count).get ⟨i, h⟩ =
      { variation_id := mkVariationId i (bs.derive i).val
        base_session_id := sid
        asset_class := ac
        schema_version := PARAM_SCHEMA_VERSION
        seed := bs.derive i
        params := bp
        intent_text := it } := by
  simp [generate_batch, List.get_eq_getElem, List.getElem_map,
    List.getElem_range]

theorem generate_batch_ids_nodup (sid : Nat) (ac : AssetClass) (bs : Seed)
    (bp : ParameterSetV1) (it : Str) (count : Nat) :
    ((generate_batch sid ac bs bp it count).map (·.variation_id)).Nodup := by
  have heq : (generate_batch sid ac bs bp it count).map (·.variation_id)
      = (List.range count).map (fun i => mkVariationId i ((bs.derive i).val)) := by
    simp [generate_batch, List.map_map, Function.comp]
  rw [heq]
  exact List.Nodup.map (fun a b hab => mkVariationId_inj hab)
    (List.nodup_range count)

/-! ### Claims -/

/-- Claim C1: `Seed::derive` is a pure, total, deterministic function of
`(seed, index)`: any two calls with the same inputs return the same
`Seed` (modelled by the equality of any two syntactic call occurrences,
and of whole 0..N iteration sequences), the function touches no state,
and every result is a valid `u64` (below `2 ^ 64`). -/
theorem c1_derive_pure_deterministic (s : Seed) (N : Nat) :
    ((List.range N).map fun i => Seed.derive s i)
      = ((List.range N).map fun i => Seed.derive s i)
    ∧ ∀ index : Nat,
        Seed.derive s index = Seed.derive s index
        ∧ (Seed.derive s index).val < 2 ^ 64 := by
  refine ⟨rfl, fun index => ⟨rfl, ?_⟩⟩
  unfold Seed.derive
  refine Nat.xor_lt_two_pow (Nat.mod_lt _ (by norm_num)) ?_
  calc _ ≤ _ := by rw [Nat.shiftRight_eq_div_pow]; exact Nat.div_le_self _ _
  _ < 2 ^ 64 := Nat.mod_lt _ (by norm_num)

/-- Claim C2: `generate_batch` returns exactly `count` specs; the `i`-th
has seed `base_seed.derive i`, variation id
`"var_" ++ (i zero-padded to 4) ++ "_" ++ decimal(seed)`, and the base
parameters unchanged; and the variation ids are pairwise distinct. -/
theorem c2_generate_batch_correct (sid : Nat) (ac : AssetClass) (bs : Seed)
    (bp : ParameterSetV1) (it : Str) (count : Nat) :
    (generate_batch sid ac bs bp it count).length = count
    ∧ (∀ i (h : i < (generate_batch sid ac bs bp it count).length),
        ((generate_batch sid ac bs bp it count).get ⟨i, h⟩).seed
            = bs.derive i
        ∧ ((generate_batch sid ac bs bp it count).get ⟨i, h⟩).variation_id
            = "var_".toList ++ pad4 i ++ '_' :: decChars (bs.derive i).val
        ∧ ((generate_batch sid ac bs bp it count).get ⟨i, h⟩).params = bp)
    ∧ ((generate_batch sid ac bs bp it count).map (·.variation_id)).Nodup := by
  refine ⟨generate_batch_length sid ac bs bp it count, fun i h => ?_,
    generate_batch_ids_nodup sid ac bs bp it count⟩
  rw [generate_batch_get]
  exact ⟨rfl, rfl, rfl⟩

/-- Witness for C2 at a concrete input: batch of 2 from seed 42. -/
theorem c2_generate_batch_correct_witness :
    ((generate_batch 7 .ArenaProp ⟨42⟩ ParameterSetV1.default ['x'] 2).get
        ⟨0, by decide⟩).seed = Seed.derive ⟨42⟩ 0
    ∧ ((generate_batch 7 .ArenaProp ⟨42⟩ ParameterSetV1.default ['x'] 2).get
        ⟨0, by decide⟩).variation_id
        = "var_".toList ++ pad4 0 ++ '_' :: decChars (Seed.derive ⟨42⟩ 0).val
    ∧ ((generate_batch 7 .ArenaProp ⟨42⟩ ParameterSetV1.default ['x'] 2).get
        ⟨0, by decide⟩).params = ParameterSetV1.default :=
  (c2_generate_batch_correct 7 .ArenaProp ⟨42⟩ ParameterSetV1.default
    ['x'] 2).2.1 0 (by decide)

/-! ### Clamping lemmas -/

theorem F32.lt_nan_right (a : F32) : F32.lt a .nan = false := by
  cases a <;> rfl

theorem F32.lt_nan_left (a : F32) : F32.lt .nan a = false := by
  cases a <;> rfl

theorem Bounded.clamped_min (b : Bounded) : b.clamped.min = b.min := by
  unfold Bounded.clamped
  split
  · rfl
  · split <;> rfl

theorem Bounded.clamped_max (b : Bounded) : b.clamped.max = b.max := by
  unfold Bounded.clamped
  split
  · rfl
  · split <;> rfl

/-- Whenever the value to clamp is not NaN and the bounds are coherent,
clamping lands in `[min, max]`. -/
theorem clamped_in_bounds (b : Bounded) (hv : b.value ≠ .nan)
    (hmn : b.min ≠ .nan) (hmx : b.max ≠ .nan)
    (hle : F32.le b.min b.max = true) :
    F32.le b.min b.clamped.value = true
    ∧ F32.le b.clamped.value b.max = true := by
  unfold Bounded.clamped
  cases h1 : F32.lt b.value b.min with
  | true =>
    simp only [h1, if_true]
    exact ⟨F32.le_refl_of_ne_nan _ hmn, hle⟩
  | false =>
    cases h2 : F32.gt b.value b.max with
    | true =>
      simp only [h1, h2, if_false, if_true, Bool.false_eq_true]
      exact ⟨hle, F32.le_refl_of_ne_nan _ hmx⟩
    | false =>
      simp only [h1, h2, if_false, Bool.false_eq_true]
      exact ⟨F32.not_lt_imp_le hv hmn h1, F32.not_lt_imp_le hmx hv h2⟩

/-- A bounded parameter is inside its own bounds (IEEE comparisons). -/
def Bounded.inBounds (b : Bounded) : Prop :=
  F32.le b.min b.value = true ∧ F32.le b.value b.max = true

instance (b : Bounded) : Decidable b.inBounds := by
  unfold Bounded.inBounds; infer_instance

theorem applyField_none (b : Bounded) : applyField b none = b := rfl

theorem applyField_inBounds {b : Bounded} (hb : b.inBounds)
    (hfin : b.value.isFinite = true) (o : Option F32)
    (ho : ∀ v, o = some v → v ≠ .nan) : (applyField b o).inBounds := by
  cases o with
  | none => exact hb
  | some v =>
    have hmn : b.min ≠ .nan := F32.ne_nan_of_le_left hb.1
    have hmx : b.max ≠ .nan := F32.ne_nan_of_le_right hb.2
    have hle : F32.le b.min b.max = true := F32.le_trans hb.1 hb.2
    have hadd : F32.add b.value v ≠ .nan :=
      F32.add_ne_nan hfin (ho v rfl)
    have h := clamped_in_bounds { b with value := F32.add b.value v }
      hadd hmn hmx hle
    constructor
    · rw [Bounded.inBounds] at *
      exact (by rw [applyField, Bounded.clamped_min]; exact h.1)
    · rw [applyField, Bounded.clamped_max]
      exact h.2

/-- Claim C4 (amended): `Bounded::new` fails with `InvalidBounds` exactly
when `min < max` does not hold under IEEE comparison (including NaN
bounds); otherwise it succeeds for every value — never failing for an
out-of-range value — keeping the given bounds; for every non-NaN value
the stored value lies in `[min, max]`, while a NaN value is stored as
NaN (outside every interval under IEEE comparisons). -/
theorem c4_bounded_new_clamps (v mn mx : F32) :
    (F32.lt mn mx = false →
      Bounded.new v mn mx = .error (.InvalidBounds mn mx))
    ∧ (F32.lt mn mx = true →
        ∃ b, Bounded.new v mn mx = .ok b
          ∧ (v ≠ .nan →
              F32.le mn b.value = true ∧ F32.le b.value mx = true)
          ∧ (v = .nan → b.value = .nan)
          ∧ b.min = mn ∧ b.max = mx) := by
  constructor
  · intro h
    unfold Bounded.new
    rw [h]
    rfl
  · intro h
    refine ⟨Bounded.clamped ⟨v, mn, mx⟩, by rw [Bounded.new, h]; rfl,
      ?_, ?_, Bounded.clamped_min _, Bounded.clamped_max _⟩
    · intro hv
      exact clamped_in_bounds ⟨v, mn, mx⟩ hv (F32.ne_nan_of_lt_left h)
        (F32.ne_nan_of_lt_right h) (F32.lt_imp_le h)
    · intro hv
      subst hv
      unfold Bounded.clamped F32.gt
      simp only [F32.lt_nan_right, F32.lt_nan_left]
      rfl

/-- Counterexample to C4 as stated: with a NaN input value and the valid
bounds `[0, 1]`, construction succeeds and stores NaN, which does not
lie in `[0, 1]` (both IEEE comparisons against the bounds are false). -/
theorem c4_counterexample :
    Bounded.new F32.nan (.fin 0) (.fin 1)
      = .ok ⟨F32.nan, .fin 0, .fin 1⟩
    ∧ F32.le (.fin 0) F32.nan = false
    ∧ F32.le F32.nan (.fin 1) = false := by decide

/-- Witness for C4 at concrete inputs: bad bounds are rejected, and a
value of 5 with bounds `[0, 1]` is stored clamped to 1. -/
theorem c4_bounded_new_clamps_witness :
    Bounded.new (.fin 5) (.fin 1) (.fin 0)
      = .error (.InvalidBounds (.fin 1) (.fin 0))
    ∧ ∃ b, Bounded.new (.fin 5) (.fin 0) (.fin 1) = .ok b
        ∧ (F32.fin 5 ≠ .nan →
            F32.le (.fin 0) b.value = true ∧ F32.le b.value (.fin 1) = true)
        ∧ (F32.fin 5 = .nan → b.value = .nan)
        ∧ b.min = .fin 0 ∧ b.max = .fin 1 :=
  ⟨(c4_bounded_new_clamps (.fin 5) (.fin 1) (.fin 0)).1 (by decide),
   (c4_bounded_new_clamps (.fin 5) (.fin 0) (.fin 1)).2 (by decide)⟩

/-- Claim C5 (amended): for every parameter set whose six fields are
within their bounds with finite values, and every delta whose present
offsets are non-NaN (infinite offsets allowed), after `apply_delta`
every field is within its own `[min, max]` bounds, and every field
absent from the delta is unchanged. (A NaN offset instead stores NaN,
see the counterexample.) -/
theorem c5_apply_delta_bounds (p : ParameterSetV1) (d : ParameterDeltaV1)
    (hp : p.height_scale.inBounds ∧ p.extrusion_depth.inBounds
      ∧ p.bevel_amount.inBounds ∧ p.symmetry_break.inBounds
      ∧ p.erosion_intensity.inBounds ∧ p.detail_density.inBounds)
    (hfin : p.height_scale.value.isFinite = true
      ∧ p.extrusion_depth.value.isFinite = true
      ∧ p.bevel_amount.value.isFinite = true
      ∧ p.symmetry_break.value.isFinite = true
      ∧ p.erosion_intensity.value.isFinite = true
      ∧ p.detail_density.value.isFinite = true)
    (hd : (∀ v, d.height_scale = some v → v ≠ .nan)
      ∧ (∀ v, d.extrusion_depth = some v → v ≠ .nan)
      ∧ (∀ v, d.bevel_amount = some v → v ≠ .nan)
      ∧ (∀ v, d.symmetry_break = some v → v ≠ .nan)
      ∧ (∀ v, d.erosion_intensity = some v → v ≠ .nan)
      ∧ (∀ v, d.detail_density = some v → v ≠ .nan)) :
    ((p.apply_delta d).height_scale.inBounds
      ∧ (p.apply_delta d).extrusion_depth.inBounds
      ∧ (p.apply_delta d).bevel_amount.inBounds
      ∧ (p.apply_delta d).symmetry_break.inBounds
      ∧ (p.apply_delta d).erosion_intensity.inBounds
      ∧ (p.apply_delta d).detail_density.inBounds)
    ∧ (d.height_scale = none →
        (p.apply_delta d).height_scale = p.height_scale)
    ∧ (d.extrusion_depth = none →
        (p.apply_delta d).extrusion_depth = p.extrusion_depth)
    ∧ (d.bevel_amount = none →
        (p.apply_delta d).bevel_amount = p.bevel_amount)
    ∧ (d.symmetry_break = none →
        (p.apply_delta d).symmetry_break = p.symmetry_break)
    ∧ (d.erosion_intensity = none →
        (p.apply_delta d).erosion_intensity = p.erosion_intensity)
    ∧ (d.detail_density = none →
        (p.apply_delta d).detail_density = p.detail_density) := by
  obtain ⟨hp1, hp2, hp3, hp4, hp5, hp6⟩ := hp
  obtain ⟨hf1, hf2, hf3, hf4, hf5, hf6⟩ := hfin
  obtain ⟨hd1, hd2, hd3, hd4, hd5, hd6⟩ := hd
  refine ⟨⟨applyField_inBounds hp1 hf1 _ hd1,
    applyField_inBounds hp2 hf2 _ hd2,
    applyField_inBounds hp3 hf3 _ hd3,
    applyField_inBounds hp4 hf4 _ hd4,
    applyField_inBounds hp5 hf5 _ hd5,
    applyField_inBounds hp6 hf6 _ hd6⟩,
    ?_, ?_, ?_, ?_, ?_, ?_⟩
  all_goals
    intro hnone
    show applyField _ _ = _
    rw [hnone]
    exact applyField_none _

/-- Counterexample to C5 as stated: a delta whose `height_scale` offset
is NaN, applied to the default parameter set (all fields within
bounds), leaves `height_scale.value = NaN`, which is outside
`[0.5, 2.0]` under IEEE comparisons. -/
theorem c5_counterexample :
    (ParameterSetV1.default.height_scale.inBounds
      ∧ ParameterSetV1.default.extrusion_depth.inBounds
      ∧ ParameterSetV1.default.bevel_amount.inBounds
      ∧ ParameterSetV1.default.symmetry_break.inBounds
      ∧ ParameterSetV1.default.erosion_intensity.inBounds
      ∧ ParameterSetV1.default.detail_density.inBounds)
    ∧ (ParameterSetV1.default.apply_delta
        { height_scale := some F32.nan }).height_scale.value = F32.nan
    ∧ ¬ (ParameterSetV1.default.apply_delta
        { height_scale := some F32.nan }).height_scale.inBounds := by
  refine ⟨by decide, by decide, ?_⟩
  intro h
  exact absurd h (by decide)

/-- Witness for C5 at a concrete input: the default parameter set with
a `+∞` offset on `height_scale` (clamped to the upper bound), a `-∞`
offset on `extrusion_depth` (clamped to the lower bound), and the rest
absent. -/
theorem c5_apply_delta_bounds_witness :
    ((ParameterSetV1.default.apply_delta
        { height_scale := some .posInf,
          extrusion_depth := some .negInf }).height_scale.inBounds
      ∧ (ParameterSetV1.default.apply_delta
        { height_scale := some .posInf,
          extrusion_depth := some .negInf }).extrusion_depth.inBounds
      ∧ (ParameterSetV1.default.apply_delta
        { height_scale := some .posInf,
          extrusion_depth := some .negInf }).bevel_amount.inBounds
      ∧ (ParameterSetV1.default.apply_delta
        { height_scale := some .posInf,
          extrusion_depth := some .negInf }).symmetry_break.inBounds
      ∧ (ParameterSetV1.default.apply_delta
        { height_scale := some .posInf,
          extrusion_depth := some .negInf }).erosion_intensity.inBounds
      ∧ (ParameterSetV1.default.apply_delta
        { height_scale := some .posInf,
          extrusion_depth := some .negInf }).detail_density.inBounds) :=
  (c5_apply_delta_bounds ParameterSetV1.default
    { height_scale := some .posInf, extrusion_depth := some .negInf }
    (by decide)
    (by decide)
    ⟨by intro v hv; cases hv; decide, by intro v hv; cases hv; decide,
     fun v hv => Option.noConfusion hv,
     fun v hv => Option.noConfusion hv,
     fun v hv => Option.noConfusion hv,
     fun v hv => Option.noConfusion hv⟩).1

/-! ### Concrete sessions used as witnesses -/

/-- A minimal concrete session (validates under `envAll`). -/
def sampleSession : SessionV1 where
  session_id := 0
  asset_class := .ArenaProp
  schema_version := PARAM_SCHEMA_VERSION
  base_input := ⟨.Drawn, "input.png".toList⟩
  base_seed := ⟨42⟩
  base_params := ParameterSetV1.default
  intent_history := []
  variations := []
  approvals := []
  notes := none

/-- A filesystem in which every path exists. -/
def envAll : FsEnv := fun _ => true

/-- Claim C3 (amended): `append_variations` appends a batch whose
indices restart at 0 — the same index sequence as a fresh batch, not
the next sequential indices — so ids across the merged collection need
not be distinct: after `generate_variations n t` followed by
`append_variations n t`, the id at position `i` equals the id at
position `n + i`. -/
theorem c3_append_restarts_indices (s : SessionV1) (n : Nat) (t u : Str) :
    (s.append_variations n u).variations
      = s.variations ++ generate_batch s.session_id s.asset_class
          s.base_seed s.base_params u n
    ∧ ∀ i, i < n →
      (((s.generate_variations n t).append_variations n t).variations.map
          (·.variation_id))[i]?
        = (((s.generate_variations n t).append_variations n t).variations.map
          (·.variation_id))[n + i]? := by
  refine ⟨rfl, fun i hi => ?_⟩
  have hB : ((s.generate_variations n t).append_variations n t).variations
      = generate_batch s.session_id s.asset_class s.base_seed s.base_params t n
        ++ generate_batch s.session_id s.asset_class s.base_seed
            s.base_params t n := rfl
  rw [hB, List.map_append]
  have hlen : ((generate_batch s.session_id s.asset_class s.base_seed
      s.base_params t n).map (·.variation_id)).length = n := by
    rw [List.length_map, generate_batch_length]
  rw [List.getElem?_append, List.getElem?_append]
  rw [if_pos (by omega), if_neg (by omega)]
  congr 1
  omega

/-- Counterexample to C3 as stated: on the sample session,
`generate_variations 1 t` then `append_variations 1 t` yields two
variations with the same id, so the merged ids are not distinct. -/
theorem c3_counterexample :
    ¬ (((sampleSession.generate_variations 1 ['t']).append_variations 1
        ['t']).variations.map (·.variation_id)).Nodup := by
  intro h
  rw [show ((sampleSession.generate_variations 1 ['t']).append_variations 1
        ['t']).variations.map (·.variation_id)
      = [mkVariationId 0 (Seed.derive ⟨42⟩ 0).val,
         mkVariationId 0 (Seed.derive ⟨42⟩ 0).val] from rfl] at h
  simp [List.nodup_cons] at h

/-- Witness for C3 at a concrete input: ids at positions 0 and 1
coincide after generate-then-append with `n = 1`. -/
theorem c3_append_restarts_indices_witness :
    (((sampleSession.generate_variations 1 ['t']).append_variations 1
        ['t']).variations.map (·.variation_id))[0]?
      = (((sampleSession.generate_variations 1 ['t']).append_variations 1
        ['t']).variations.map (·.variation_id))[1]? :=
  (c3_append_restarts_indices sampleSession 1 ['t'] ['t']).2 0 (by decide)

/-- A concrete variation spec with id `"v1"`. -/
def sampleVariation : VariationSpecV1 where
  variation_id := "v1".toList
  base_session_id := 0
  asset_class := .ArenaProp
  schema_version := PARAM_SCHEMA_VERSION
  seed := ⟨1⟩
  params := ParameterSetV1.default
  intent_text := []

/-- The sample session holding the one variation `"v1"`. -/
def sessionWithVar : SessionV1 :=
  { sampleSession with variations := [sampleVariation] }

/-- Claim C6: `approve_variation` fails with `InvalidDimensions` when a
dimension is non-positive or non-finite, with `UnknownVariation` when no
current variation carries the id, with `DuplicateApproval` when the id
is already approved; otherwise it appends an `ApprovedDesignV1` and
returns `"appr_" ++ decimal(prior approval count) ++ "_" ++ id` (so the
first approval of a variation returns `"appr_0_" ++ id`). -/
theorem c6_approve_variation_cases (s : SessionV1) (vid : Str)
    (dims : DimensionsMeters) (ex : ExportSettingsV1) (lbl : Option Str) :
    (dims.is_valid = false →
      s.approve_variation vid dims ex lbl = (.error .InvalidDimensions, s))
    ∧ (dims.is_valid = true →
        (s.variations.any fun v => v.variation_id == vid) = false →
        s.approve_variation vid dims ex lbl
          = (.error (.UnknownVariation vid), s))
    ∧ (dims.is_valid = true →
        (s.variations.any fun v => v.variation_id == vid) = true →
        (s.approvals.any fun a => a.variation_id == vid) = true →
        s.approve_variation vid dims ex lbl
          = (.error (.DuplicateApproval vid), s))
    ∧ (dims.is_valid = true →
        (s.variations.any fun v => v.variation_id == vid) = true →
        (s.approvals.any fun a => a.variation_id == vid) = false →
        s.approve_variation vid dims ex lbl
          = (.ok ("appr_".toList ++ decChars s.approvals.length ++ '_' :: vid),
             { s with approvals := s.approvals ++
                [⟨"appr_".toList ++ decChars s.approvals.length ++ '_' :: vid,
                  vid, dims, ex, lbl⟩] })) := by
  refine ⟨fun h1 => ?_, fun h1 h2 => ?_, fun h1 h2 h3 => ?_,
    fun h1 h2 h3 => ?_⟩
  · unfold SessionV1.approve_variation
    rw [h1]
    rfl
  · unfold SessionV1.approve_variation
    rw [h1, h2]
    rfl
  · unfold SessionV1.approve_variation
    rw [h1, h2, h3]
    rfl
  · unfold SessionV1.approve_variation
    rw [h1, h2, h3]
    rfl

/-- Witness for C6 at a concrete input: the first approval of `"v1"` in
the sample session succeeds and returns `"appr_0_v1"`. -/
theorem c6_approve_variation_cases_witness :
    sessionWithVar.approve_variation "v1".toList ⟨.fin 1, .fin 1, .fin 1⟩
        ⟨.BaseCenter, .Box, true⟩ none
      = (.ok ("appr_".toList ++ decChars sessionWithVar.approvals.length
            ++ '_' :: "v1".toList),
         { sessionWithVar with approvals := sessionWithVar.approvals ++
            [⟨"appr_".toList ++ decChars sessionWithVar.approvals.length
                ++ '_' :: "v1".toList,
              "v1".toList, ⟨.fin 1, .fin 1, .fin 1⟩,
              ⟨.BaseCenter, .Box, true⟩, none⟩] }) :=
  (c6_approve_variation_cases sessionWithVar "v1".toList
    ⟨.fin 1, .fin 1, .fin 1⟩ ⟨.BaseCenter, .Box, true⟩ none).2.2.2
    (by decide) (by decide) (by decide)

/-- The approval scan reports the first approval that fails either of
its two per-approval checks; if every approval before `a` passes both
and `a` is orphaned, the scan reports `a`'s orphanhood. -/
theorem checkApprovals_orphan (ids : List Str) (pre : List ApprovedDesignV1)
    (a : ApprovedDesignV1) (post : List ApprovedDesignV1)
    (hpre : ∀ b ∈ pre, b.variation_id ∈ ids ∧ b.dimensions.is_valid = true)
    (ha : a.variation_id ∉ ids) :
    SessionV1.checkApprovals ids (pre ++ a :: post)
      = .error (.OrphanedApproval a.approved_id a.variation_id) := by
  induction pre with
  | nil =>
    rw [List.nil_append, SessionV1.checkApprovals, if_pos ha]
  | cons b t ih =>
    have hb := hpre b (List.mem_cons_self b t)
    rw [List.cons_append, SessionV1.checkApprovals,
      if_neg (not_not_intro hb.1), hb.2]
    simp only [Bool.not_true, Bool.false_eq_true, if_false]
    exact ih fun x hx => hpre x (List.mem_cons_of_mem b hx)

/-- Claim C7 (amended): `validate` runs schema-version, base-input,
parameter-bounds and duplicate-id checks in order, then scans the
approvals in one pass, checking each approval's reference (check 5)
and then its dimensions (check 6) before moving to the next approval.
When checks 1–4 pass, an approval is orphaned, and every earlier
approval references an existing variation with valid dimensions,
`validate` returns `OrphanedApproval`; but an earlier approval with
invalid dimensions is reported as `InvalidDimensions` even when a
later approval is orphaned — checks 5 and 6 are interleaved per
approval, not two sequential passes. -/
theorem c7_validate_orphan_order (env : FsEnv) (s : SessionV1)
    (h1 : s.schema_version = PARAM_SCHEMA_VERSION)
    (h2 : env s.base_input.source_path = true)
    (h3 : s.base_params.validate = .ok ())
    (h4 : SessionV1.checkDups [] s.variations = .ok ())
    (pre : List ApprovedDesignV1) (a : ApprovedDesignV1)
    (post : List ApprovedDesignV1)
    (hsplit : s.approvals = pre ++ a :: post)
    (hpre : ∀ b ∈ pre, b.variation_id ∈ s.variations.map (·.variation_id)
      ∧ b.dimensions.is_valid = true)
    (ha : a.variation_id ∉ s.variations.map (·.variation_id)) :
    SessionV1.validate env s
      = .error (.OrphanedApproval a.approved_id a.variation_id) := by
  have hbi : s.base_input.validate env = .ok () := by
    unfold BaseInputRefV1.validate
    rw [h2]
    rfl
  unfold SessionV1.validate
  rw [if_neg (not_not_intro h1)]
  simp only [hbi, h3, h4, hsplit]
  exact checkApprovals_orphan _ pre a post hpre ha

/-- The sample session with one valid-looking approval of `"v1"` whose
dimensions are invalid (height 0), followed by an orphaned approval. -/
def interleavedSession : SessionV1 :=
  { sampleSession with
    variations := [sampleVariation]
    approvals :=
      [⟨"a0".toList, "v1".toList, ⟨.fin 0, .fin 1, .fin 1⟩,
        ⟨.BaseCenter, .Box, true⟩, none⟩,
       ⟨"a1".toList, "zz".toList, ⟨.fin 1, .fin 1, .fin 1⟩,
        ⟨.BaseCenter, .Box, true⟩, none⟩] }

/-- Counterexample to C7 as stated: `interleavedSession` has an
approval (`"a1"`) whose variation id is missing from the current
variations, yet `validate` returns `InvalidDimensions` (for the
earlier approval `"a0"`), not `OrphanedApproval`. -/
theorem c7_counterexample :
    (interleavedSession.approvals.any fun a =>
      !(interleavedSession.variations.any fun v =>
        v.variation_id == a.variation_id)) = true
    ∧ SessionV1.validate envAll interleavedSession
        = .error .InvalidDimensions := by
  exact ⟨by decide, by decide⟩

/-- Witness for C7 at a concrete input: a session whose only approval
is orphaned is reported as `OrphanedApproval`. -/
theorem c7_validate_orphan_order_witness :
    SessionV1.validate envAll
      { sampleSession with
        variations := [sampleVariation]
        approvals := [⟨"a0".toList, "zz".toList, ⟨.fin 1, .fin 1, .fin 1⟩,
          ⟨.BaseCenter, .Box, true⟩, none⟩] }
      = .error (.OrphanedApproval "a0".toList "zz".toList) :=
  c7_validate_orphan_order envAll _ rfl rfl (by decide) (by decide)
    [] ⟨"a0".toList, "zz".toList, ⟨.fin 1, .fin 1, .fin 1⟩,
      ⟨.BaseCenter, .Box, true⟩, none⟩ [] rfl
    (fun b hb => absurd hb (List.not_mem_nil b)) (by decide)

/-- Claim C8: when `validate` succeeds on `s`, saving then loading at
the same path succeeds, and the loaded session validates and agrees
with `s` on every field. (Serialization is modelled as exact, see
`save_session`/`load_session`.) -/
theorem c8_save_load_roundtrip (env : FsEnv) (store : SessionStore)
    (path : Str) (s : SessionV1)
    (h : SessionV1.validate env s = .ok ()) :
    ∃ store2 s2, save_session env store path s = .ok store2
      ∧ load_session env store2 path = .ok s2
      ∧ SessionV1.validate env s2 = .ok ()
      ∧ s2.session_id = s.session_id
      ∧ s2.asset_class = s.asset_class
      ∧ s2.schema_version = s.schema_version
      ∧ s2.base_input = s.base_input
      ∧ s2.base_seed = s.base_seed
      ∧ s2.base_params = s.base_params
      ∧ s2.intent_history = s.intent_history
      ∧ s2.variations = s.variations
      ∧ s2.approvals = s.approvals
      ∧ s2.notes = s.notes := by
  refine ⟨fun p => if p = path then some s else store p, s, ?_, ?_, h,
    rfl, rfl, rfl, rfl, rfl, rfl, rfl, rfl, rfl, rfl⟩
  · unfold save_session
    simp only [h]
  · unfold load_session
    simp [h]

/-- Witness for C8 at a concrete input: the sample session round-trips
through an empty store. -/
theorem c8_save_load_roundtrip_witness :
    ∃ store2 s2,
      save_session envAll (fun _ => none) "p".toList sampleSession
        = .ok store2
      ∧ load_session envAll store2 "p".toList = .ok s2
      ∧ SessionV1.validate envAll s2 = .ok ()
      ∧ s2.session_id = sampleSession.session_id
      ∧ s2.asset_class = sampleSession.asset_class
      ∧ s2.schema_version = sampleSession.schema_version
      ∧ s2.base_input = sampleSession.base_input
      ∧ s2.base_seed = sampleSession.base_seed
      ∧ s2.base_params = sampleSession.base_params
      ∧ s2.intent_history = sampleSession.intent_history
      ∧ s2.variations = sampleSession.variations
      ∧ s2.approvals = sampleSession.approvals
      ∧ s2.notes = sampleSession.notes :=
  c8_save_load_roundtrip envAll (fun _ => none) "p".toList sampleSession
    (by decide)

/-- Claim C9: `generate_variations` replaces the `variations`
collection with the freshly generated batch and leaves every other
session field — approvals included — unchanged. -/
theorem c9_generate_variations_frame (s : SessionV1) (count : Nat)
    (t : Str) :
    (s.generate_variations count t).variations
      = generate_batch s.session_id s.asset_class s.base_seed
          s.base_params t count
    ∧ (s.generate_variations count t).approvals = s.approvals
    ∧ (s.generate_variations count t).intent_history = s.intent_history
    ∧ (s.generate_variations count t).base_params = s.base_params
    ∧ (s.generate_variations count t).base_seed = s.base_seed
    ∧ (s.generate_variations count t).session_id = s.session_id
    ∧ (s.generate_variations count t).asset_class = s.asset_class
    ∧ (s.generate_variations count t).schema_version = s.schema_version
    ∧ (s.generate_variations count t).base_input = s.base_input
    ∧ (s.generate_variations count t).notes = s.notes :=
  ⟨rfl, rfl, rfl, rfl, rfl, rfl, rfl, rfl, rfl, rfl⟩

/-- Claim C10: the fallible session mutators are atomic — whenever
`push_intent` or `approve_variation` returns an error, the session
after the call equals the session before it. -/
theorem c10_mutators_atomic_on_error :
    (∀ (s : SessionV1) (t : Str) (e : SessionError),
      (s.push_intent t).1 = .error e → (s.push_intent t).2 = s)
    ∧ (∀ (s : SessionV1) (vid : Str) (dims : DimensionsMeters)
        (ex : ExportSettingsV1) (lbl : Option Str) (e : SessionError),
      (s.approve_variation vid dims ex lbl).1 = .error e →
      (s.approve_variation vid dims ex lbl).2 = s) := by
  constructor
  · intro s t e h
    unfold SessionV1.push_intent at h ⊢
    split at h
    next hc => rw [if_pos hc]
    next hc => simp at h
  · intro s vid dims ex lbl e h
    unfold SessionV1.approve_variation at h ⊢
    split at h
    next hc => rw [if_pos hc]
    next hc =>
      rw [if_neg hc]
      split at h
      next hc2 => rw [if_pos hc2]
      next hc2 =>
        rw [if_neg hc2]
        split at h
        next hc3 => rw [if_pos hc3]
        next hc3 => simp at h

/-- Witness for C10 at concrete inputs: a rejected empty intent and a
rejected unknown-variation approval both leave the sample session
unchanged. -/
theorem c10_mutators_atomic_on_error_witness :
    (sampleSession.push_intent []).2 = sampleSession
    ∧ (sampleSession.approve_variation "zz".toList ⟨.fin 1, .fin 1, .fin 1⟩
        ⟨.BaseCenter, .Box, true⟩ none).2 = sampleSession :=
  ⟨c10_mutators_atomic_on_error.1 sampleSession [] .EmptyIntent (by decide),
   c10_mutators_atomic_on_error.2 sampleSession "zz".toList
    ⟨.fin 1, .fin 1, .fin 1⟩ ⟨.BaseCenter, .Box, true⟩ none
    (.UnknownVariation "zz".toList) (by decide)⟩
